import Mathlib

/-!
Shallow embedding of the HMC5883L magnetometer driver
(src/Arduino/HMC5883L/HMC5883L.cpp) over an explicit model of the
register-oriented bus transport.

The driver's floating-point scale factors are modelled as rationals; the
C cast of the scaled product to `int16_t` is modelled as truncation
toward zero.  Machine bytes are `Nat` values reduced `% 256` where the
code truncates; signed 16-bit data-register values are `Int` obtained by
`toInt16`.
-/

/-- Modelled from the spec: device register map (fixed addresses) of the
header file, absent from src.  CONFIG_A register address. -/
def HMC5883L_RA_CONFIG_A : Nat := 0

/-- Modelled from the spec: CONFIG_B register address. -/
def HMC5883L_RA_CONFIG_B : Nat := 1

/-- Modelled from the spec: MODE register address. -/
def HMC5883L_RA_MODE : Nat := 2

/-- Modelled from the spec: X-high data register address, start of the
six contiguous data bytes. -/
def HMC5883L_RA_DATAX_H : Nat := 3

/-- Modelled from the spec: ID_A register address. -/
def HMC5883L_RA_ID_A : Nat := 10

/-- Modelled from the spec: sample-averaging field, high bit 6, width 2,
in CONFIG_A. -/
def HMC5883L_CRA_AVERAGE_BIT : Nat := 6

/-- Modelled from the spec: sample-averaging field width. -/
def HMC5883L_CRA_AVERAGE_LENGTH : Nat := 2

/-- Modelled from the spec: data-rate field, high bit 4, width 3, in
CONFIG_A. -/
def HMC5883L_CRA_RATE_BIT : Nat := 4

/-- Modelled from the spec: data-rate field width. -/
def HMC5883L_CRA_RATE_LENGTH : Nat := 3

/-- Modelled from the spec: measurement-bias field, high bit 1, width 2,
in CONFIG_A. -/
def HMC5883L_CRA_BIAS_BIT : Nat := 1

/-- Modelled from the spec: measurement-bias field width. -/
def HMC5883L_CRA_BIAS_LENGTH : Nat := 2

/-- Modelled from the spec: gain field, high bit 7, width 3, in CONFIG_B
(so a gain byte is the gain value shifted left by 5, bits 4-0 zero). -/
def HMC5883L_CRB_GAIN_BIT : Nat := 7

/-- Modelled from the spec: gain field width. -/
def HMC5883L_CRB_GAIN_LENGTH : Nat := 3

/-- Modelled from the spec: mode field, high bit 1, width 2, in the MODE
register (bits 7-2 are reserved and must be written as zero). -/
def HMC5883L_MODEREG_BIT : Nat := 1

/-- Modelled from the spec: mode field width. -/
def HMC5883L_MODEREG_LENGTH : Nat := 2

/-- Modelled from the spec: normal measurement bias value. -/
def HMC5883L_BIAS_NORMAL : Nat := 0

/-- Modelled from the spec: positive self-test measurement bias value. -/
def HMC5883L_BIAS_POSITIVE : Nat := 1

/-- Modelled from the spec: single-measurement mode value. -/
def HMC5883L_MODE_SINGLE : Nat := 1

/-- Modelled from the spec: lowest gain index (1370 LSB/Gauss). -/
def HMC5883L_GAIN_1370 : Nat := 0

/-- Modelled from the spec: default gain index (1090 LSB/Gauss). -/
def HMC5883L_GAIN_1090 : Nat := 1

/-- Modelled from the spec: highest gain index (230 LSB/Gauss). -/
def HMC5883L_GAIN_220 : Nat := 7

/-- Modelled from the spec: 8-sample averaging setting. -/
def HMC5883L_AVERAGING_8 : Nat := 3

/-- Modelled from the spec: 15 Hz data-rate setting. -/
def HMC5883L_RATE_15 : Nat := 4

/-- Modelled from the spec: datasheet self-test field strength on the X
axis, in Gauss (1.16), a per-axis calibration constant of the header. -/
def HMC5883L_SELF_TEST_X_AXIS_ABSOLUTE_GAUSS : ℚ := 29 / 25

/-- Modelled from the spec: datasheet self-test field strength on the Y
axis, in Gauss (1.16). -/
def HMC5883L_SELF_TEST_Y_AXIS_ABSOLUTE_GAUSS : ℚ := 29 / 25

/-- Modelled from the spec: datasheet self-test field strength on the Z
axis, in Gauss (1.08). -/
def HMC5883L_SELF_TEST_Z_AXIS_ABSOLUTE_GAUSS : ℚ := 27 / 25

/-- Modelled from the spec: per-gain LSB/Gauss table of the header
(datasheet sensitivity for gain indices 0-7). -/
def HMC5883L_LSB_PER_GAUS (g : Nat) : ℚ :=
  ([1370, 1090, 820, 660, 440, 390, 330, 230] : List ℚ).getD g 0

/-- One scale-factor row: the three per-axis multipliers (floats in the
source, rationals here). -/
structure Axis3 where
  x : ℚ
  y : ℚ
  z : ℚ
deriving DecidableEq

/-- The external bus transport together with the device it reaches.
`regs` is the device register file (byte values); `frames` scripts the
successive 6-byte responses of reads at the X-high data register (the
device latches a fresh measurement for each acquisition); `idCount` and
`idBytes` script the response to the identification read; `ack` tells
whether writes are acknowledged; `wlog` records every write issued
(register, byte). -/
structure Bus where
  regs : Nat → Nat
  frames : List (List Nat)
  idCount : Nat
  idBytes : List Nat
  ack : Bool
  wlog : List (Nat × Nat)

/-- Modelled from the spec: `writeByte(addr, reg, value) -> bool` of the
bus transport (I2Cdev, not in src): writes one byte, true on ack.  The
register only changes when the write is acknowledged; the attempt is
always recorded in the write log. -/
def Bus.writeByte (b : Bus) (reg val : Nat) : Bool × Bus :=
  let v := val % 256
  (b.ack,
   { b with
     regs := if b.ack then (fun r => if r = reg then v else b.regs r) else b.regs,
     wlog := b.wlog ++ [(reg, v)] })

/-- Modelled from the spec: `readBits(addr, reg, highBit, width)` of the
bus transport: a bit-range read, value right-aligned. -/
def Bus.readBits (b : Bus) (reg bitStart len : Nat) : Nat :=
  (b.regs reg >>> (bitStart + 1 - len)) % 2 ^ len

/-- Modelled from the spec: `writeBits(addr, reg, highBit, width, value)`
of the bus transport: a read-modify-write leaving all other bits of the
register untouched. -/
def Bus.writeBits (b : Bus) (reg bitStart len val : Nat) : Bool × Bus :=
  let shift := bitStart + 1 - len
  let mask := (2 ^ len - 1) <<< shift
  let newByte := ((b.regs reg % 256) &&& (255 - mask)) ||| ((val <<< shift) &&& mask)
  b.writeByte reg newByte

/-- Modelled from the spec: `readBytes(addr, reg, count) -> byte[count]`
of the bus transport, returning fewer than `count` on a short read.  A
read at the X-high data register consumes the next scripted measurement
frame; a read at ID_A returns the scripted identification response;
other reads return the register file contents. -/
def Bus.readBytes (b : Bus) (reg n : Nat) : Nat × List Nat × Bus :=
  if reg = HMC5883L_RA_DATAX_H then
    match b.frames with
    | [] => (0, [], b)
    | f :: rest => (min n f.length, f.take n, { b with frames := rest })
  else if reg = HMC5883L_RA_ID_A then
    (min n b.idCount, b.idBytes.take (min n b.idCount), b)
  else
    (n, (List.range n).map (fun i => b.regs (reg + i)), b)

/-- Store received bytes at the front of the driver's persistent I/O
buffer, leaving positions past the received count unchanged (stale). -/
def storeBytes (buf : Nat → Nat) (bytes : List Nat) : Nat → Nat :=
  fun i => if h : i < bytes.length then bytes.get ⟨i, h⟩ else buf i

/-- The driver object: device address, cached gain and mode, the shared
I/O buffer, and the per-gain scale-factor table. -/
structure Driver where
  devAddr : Nat
  gain : Nat
  mode : Nat
  buffer : Nat → Nat
  scaleFactors : Nat → Axis3

/-- Overwrite the three scale factors of one gain index. -/
def setScaleFactor (d : Driver) (g : Nat) (v : Axis3) : Driver :=
  { d with scaleFactors := fun i => if i = g then v else d.scaleFactors i }

/-- Interpret a natural number as a two's-complement signed 16-bit
value. -/
def toInt16 (n : Nat) : Int :=
  if n % 65536 < 32768 then ((n % 65536 : Nat) : Int)
  else ((n % 65536 : Nat) : Int) - 65536

/-- Truncation of a rational toward zero, the behaviour of the C cast
from float to a signed integer type. -/
def qtrunc (q : ℚ) : Int := q.num.tdiv (q.den : Int)

/-- `HMC5883L::getGain`: bit-range read of the gain field of CONFIG_B
into the shared buffer, returning `buffer[0]`. -/
def HMC5883L.getGain (d : Driver) (b : Bus) : Nat × Driver × Bus :=
  let v := b.readBits HMC5883L_RA_CONFIG_B HMC5883L_CRB_GAIN_BIT HMC5883L_CRB_GAIN_LENGTH
  let d := { d with buffer := storeBytes d.buffer [v] }
  (d.buffer 0, d, b)

/-- `HMC5883L::setGain`: whole-byte write of the gain shifted into
position (bits 4-0 zero); the cached gain is updated only when the
write is acknowledged. -/
def HMC5883L.setGain (d : Driver) (b : Bus) (newGain : Nat) : Driver × Bus :=
  let r := b.writeByte HMC5883L_RA_CONFIG_B
      (newGain <<< (HMC5883L_CRB_GAIN_BIT + 1 - HMC5883L_CRB_GAIN_LENGTH))
  (if r.1 then { d with gain := newGain } else d, r.2)

/-- `HMC5883L::setMode`: whole-byte write to the MODE register.  As in
the source, the byte written is the PREVIOUS cached `mode` shifted into
position, not `newMode`; the cached mode is then updated to `newMode`
unconditionally. -/
def HMC5883L.setMode (d : Driver) (b : Bus) (newMode : Nat) : Driver × Bus :=
  let r := b.writeByte HMC5883L_RA_MODE
      (d.mode <<< (HMC5883L_MODEREG_BIT + 1 - HMC5883L_MODEREG_LENGTH))
  ({ d with mode := newMode }, r.2)

/-- `HMC5883L::setMeasurementBias`: bit-range write of the bias field of
CONFIG_A. -/
def HMC5883L.setMeasurementBias (d : Driver) (b : Bus) (bias : Nat) : Driver × Bus :=
  let r := b.writeBits HMC5883L_RA_CONFIG_A HMC5883L_CRA_BIAS_BIT HMC5883L_CRA_BIAS_LENGTH bias
  (d, r.2)

/-- `HMC5883L::getRawHeading`: in single mode, first re-trigger a single
measurement by a whole-byte MODE write (the delay is immaterial to the
model); then read 6 contiguous bytes starting at the X-high register
into the shared buffer and decode big-endian signed 16-bit values in
the wire order X, Z, Y. -/
def HMC5883L.getRawHeading (d : Driver) (b : Bus) : (Int × Int × Int) × Driver × Bus :=
  let b :=
    if d.mode = HMC5883L_MODE_SINGLE then
      (b.writeByte HMC5883L_RA_MODE
        (HMC5883L_MODE_SINGLE <<< (HMC5883L_MODEREG_BIT + 1 - HMC5883L_MODEREG_LENGTH))).2
    else b
  let r := b.readBytes HMC5883L_RA_DATAX_H 6
  let d := { d with buffer := storeBytes d.buffer r.2.1 }
  ((toInt16 (d.buffer 0 * 256 + d.buffer 1),
    toInt16 (d.buffer 4 * 256 + d.buffer 5),
    toInt16 (d.buffer 2 * 256 + d.buffer 3)), d, r.2.2)

/-- `HMC5883L::getHeading`: raw heading scaled elementwise by the scale
factors of the cached gain, each product cast to `int16_t` (truncation
toward zero). -/
def HMC5883L.getHeading (d : Driver) (b : Bus) : (Int × Int × Int) × Driver × Bus :=
  let r := HMC5883L.getRawHeading d b
  let d := r.2.1
  ((qtrunc ((d.scaleFactors d.gain).x * ((r.1.1 : ℤ) : ℚ)),
    qtrunc ((d.scaleFactors d.gain).y * ((r.1.2.1 : ℤ) : ℚ)),
    qtrunc ((d.scaleFactors d.gain).z * ((r.1.2.2 : ℤ) : ℚ))), d, r.2.2)

/-- `HMC5883L::testConnection`: read 3 bytes at ID_A; true exactly when
3 bytes arrive and they are ASCII 'H', '4', '3'. -/
def HMC5883L.testConnection (d : Driver) (b : Bus) : Bool × Driver × Bus :=
  let r := b.readBytes HMC5883L_RA_ID_A 3
  let d := { d with buffer := storeBytes d.buffer r.2.1 }
  if r.1 = 3 then
    ((d.buffer 0 == 72) && (d.buffer 1 == 52) && (d.buffer 2 == 51), d, r.2.2)
  else
    (false, d, r.2.2)

/-- `HMC5883L::initialize` (the name here avoids a keyword clash):
program CONFIG_A (8-sample averaging, 15 Hz,
normal bias), set the default gain and single mode, and reset every
gain's scale factors to 1.0. -/
def HMC5883L.initializeDevice (d : Driver) (b : Bus) : Driver × Bus :=
  let r0 := b.writeByte HMC5883L_RA_CONFIG_A
      ((HMC5883L_AVERAGING_8 <<< (HMC5883L_CRA_AVERAGE_BIT + 1 - HMC5883L_CRA_AVERAGE_LENGTH)) |||
       (HMC5883L_RATE_15 <<< (HMC5883L_CRA_RATE_BIT + 1 - HMC5883L_CRA_RATE_LENGTH)) |||
       (HMC5883L_BIAS_NORMAL <<< (HMC5883L_CRA_BIAS_BIT + 1 - HMC5883L_CRA_BIAS_LENGTH)))
  let r1 := HMC5883L.setGain d r0.2 HMC5883L_GAIN_1090
  let r2 := HMC5883L.setMode r1.1 r1.2 HMC5883L_MODE_SINGLE
  let d := (List.range (HMC5883L_GAIN_220 + 1)).foldl
      (fun d g => setScaleFactor d g ⟨1, 1, 1⟩) r2.1
  (d, r2.2)

/-- Steps 1-3 of `HMC5883L::calibrate` (source lines 460-477): read and
save the device's current gain, resolve a negative argument to the
cached gain, then program the target gain, positive self-test bias and
single mode.  Returns (saved previous gain, resolved target gain, new
driver state, new bus state). -/
def HMC5883L.calibrateSetup (d : Driver) (b : Bus) (testGain : Int) :
    Nat × Nat × Driver × Bus :=
  let r0 := HMC5883L.getGain d b
  let previousGain := r0.1
  let tg : Nat := if testGain < 0 then r0.2.1.gain else testGain.toNat
  let r1 := HMC5883L.setGain r0.2.1 r0.2.2 tg
  let r2 := HMC5883L.setMeasurementBias r1.1 r1.2 HMC5883L_BIAS_POSITIVE
  let r3 := HMC5883L.setMode r2.1 r2.2 HMC5883L_MODE_SINGLE
  (previousGain, tg, r3.1, r3.2)

/-- `HMC5883L::calibrate`: after the setup steps, perform two raw
acquisitions with the `min == -4096` overflow check after each, then
derive the per-axis scale factors from the second acquisition and
restore gain and bias. -/
def HMC5883L.calibrate (d : Driver) (b : Bus) (testGain : Int) : Bool × Driver × Bus :=
  let s := HMC5883L.calibrateSetup d b testGain
  let previousGain := s.1
  let tg := s.2.1
  let r4 := HMC5883L.getRawHeading s.2.2.1 s.2.2.2
  let x := r4.1.1
  let y := r4.1.2.1
  let z := r4.1.2.2
  if min x (min y z) = -4096 then
    (false, setScaleFactor r4.2.1 tg ⟨1, 1, 1⟩, r4.2.2)
  else
    let r5 := HMC5883L.getRawHeading r4.2.1 r4.2.2
    let x := r5.1.1
    let y := r5.1.2.1
    let z := r5.1.2.2
    if min x (min y z) = -4096 then
      (false, setScaleFactor r5.2.1 tg ⟨1, 1, 1⟩, r5.2.2)
    else
      let xExpectedSelfTestValue :=
        HMC5883L_SELF_TEST_X_AXIS_ABSOLUTE_GAUSS * HMC5883L_LSB_PER_GAUS tg
      let yExpectedSelfTestValue :=
        HMC5883L_SELF_TEST_Y_AXIS_ABSOLUTE_GAUSS * HMC5883L_LSB_PER_GAUS tg
      let zExpectedSelfTestValue :=
        HMC5883L_SELF_TEST_Z_AXIS_ABSOLUTE_GAUSS * HMC5883L_LSB_PER_GAUS tg
      let d5 := setScaleFactor r5.2.1 tg
        ⟨xExpectedSelfTestValue / ((x : ℤ) : ℚ),
         yExpectedSelfTestValue / ((y : ℤ) : ℚ),
         zExpectedSelfTestValue / ((z : ℤ) : ℚ)⟩
      let r6 := HMC5883L.setGain d5 r5.2.2 previousGain
      let r7 := HMC5883L.setMeasurementBias r6.1 r6.2 HMC5883L_BIAS_NORMAL
      (true, r7.1, r7.2)

/-- Decode of the X axis from a 6-byte wire frame: bytes 0 and 1,
big-endian signed. -/
def wireX (f : List Nat) : Int := toInt16 (f.getD 0 0 * 256 + f.getD 1 0)

/-- Decode of the Y axis from a 6-byte wire frame: bytes 4 and 5,
big-endian signed. -/
def wireY (f : List Nat) : Int := toInt16 (f.getD 4 0 * 256 + f.getD 5 0)

/-- Decode of the Z axis from a 6-byte wire frame: bytes 2 and 3,
big-endian signed. -/
def wireZ (f : List Nat) : Int := toInt16 (f.getD 2 0 * 256 + f.getD 3 0)

/-- A concrete driver state: default address, gain 1 cached, idle mode
cached, zeroed buffer, identity scale factors. -/
def sampleDriver : Driver :=
  { devAddr := 30, gain := 1, mode := 2, buffer := fun _ => 0,
    scaleFactors := fun _ => ⟨1, 1, 1⟩ }

/-- A concrete acknowledging bus with zeroed registers, the genuine
identification bytes, and the given measurement frames. -/
def sampleBus (frames : List (List Nat)) : Bus :=
  { regs := fun _ => 0, frames := frames, idCount := 3,
    idBytes := [72, 52, 51], ack := true, wlog := [] }

/-- Two benign scripted acquisitions, decoding to (100, 140, 120). -/
def calFramesOk : List (List Nat) := [[0, 100, 0, 120, 0, 140], [0, 100, 0, 120, 0, 140]]

/-- A first acquisition decoding to (-4096, 100, 1) followed by a benign
one. -/
def calFramesBad : List (List Nat) := [[240, 0, 0, 1, 0, 100], [0, 100, 0, 120, 0, 140]]

/-- The minimum of three values is one of them, so it differs from `a`
whenever all three do. -/
theorem min3_ne {x y z a : Int} (hx : x ≠ a) (hy : y ≠ a) (hz : z ≠ a) :
    min x (min y z) ≠ a := by
  rcases min_choice x (min y z) with h | h
  · rw [h]; exact hx
  · rw [h]; rcases min_choice y z with h2 | h2 <;> rw [h2] <;> assumption

/-- Clearing the two low bits leaves a byte divisible by 4. -/
theorem and_252_mod_four (x : Nat) : (x &&& 252) % 4 = 0 := by
  have h4 : (x &&& 252) % 4 = (x &&& 252) &&& (2 ^ 2 - 1) :=
    (Nat.and_pow_two_sub_one_eq_mod _ 2).symm
  have h0 : (252 : Nat) &&& 3 = 0 := by decide
  rw [h4, Nat.and_assoc]
  norm_num [h0]

/-- Setting the low bit after clearing the two low bits gives residue 1
mod 4. -/
theorem and_252_or_one_mod_four (x : Nat) : ((x &&& 252) ||| 1) % 4 = 1 := by
  have h0 : (252 : Nat) &&& 3 = 0 := by decide
  have h4 : ((x &&& 252) ||| 1) % 4 = ((x &&& 252) ||| 1) &&& (2 ^ 2 - 1) :=
    (Nat.and_pow_two_sub_one_eq_mod _ 2).symm
  rw [h4, Nat.and_distrib_right, Nat.and_assoc]
  norm_num [h0]

/-- Claim C8: after `initialize`, every gain index 0-7 has scale factors
(1.0, 1.0, 1.0). -/
theorem initialize_scaleFactors_one (d : Driver) (b : Bus) (g : Nat) (hg : g < 8) :
    ((HMC5883L.initializeDevice d b).1).scaleFactors g = ⟨1, 1, 1⟩ := by
  simp only [HMC5883L.initializeDevice, HMC5883L_GAIN_220]
  have hr : List.range (7 + 1) = [0, 1, 2, 3, 4, 5, 6, 7] := by decide
  rw [hr]
  simp only [List.foldl, setScaleFactor]
  interval_cases g <;> simp

/-- Witness for C8 at gain index 3. -/
theorem initialize_scaleFactors_one_witness :
    (3 : Nat) < 8 ∧
    ((HMC5883L.initializeDevice sampleDriver (sampleBus [])).1).scaleFactors 3 = ⟨1, 1, 1⟩ :=
  ⟨by decide, initialize_scaleFactors_one sampleDriver (sampleBus []) 3 (by decide)⟩

/-- Claim C9: `testConnection` is true exactly when the identification read
returns 3 bytes and they are ASCII 'H', '4', '3' (72, 52, 51); any
other byte or a short read yields false. -/
theorem testConnection_iff (d : Driver) (b : Bus)
    (hlen : b.idBytes.length = b.idCount) (hle : b.idCount ≤ 3) :
    ((HMC5883L.testConnection d b).1 = true ↔
      b.idCount = 3 ∧ b.idBytes = [72, 52, 51]) := by
  have hmin : min 3 b.idCount = b.idCount := Nat.min_eq_right hle
  by_cases h3 : b.idCount = 3
  · obtain ⟨a0, a1, a2, he⟩ := List.length_eq_three.mp (hlen.trans h3)
    simp only [HMC5883L.testConnection, Bus.readBytes, HMC5883L_RA_ID_A,
      HMC5883L_RA_DATAX_H, hmin, h3, he, storeBytes]
    norm_num [List.take, List.get]
    simp [he]
    tauto
  · simp only [HMC5883L.testConnection, Bus.readBytes, HMC5883L_RA_ID_A,
      HMC5883L_RA_DATAX_H, hmin]
    norm_num [h3]

/-- Witness for C9: the genuine identification response is accepted. -/
theorem testConnection_iff_witness :
    (sampleBus []).idBytes.length = (sampleBus []).idCount ∧
    (sampleBus []).idCount ≤ 3 ∧
    ((HMC5883L.testConnection sampleDriver (sampleBus [])).1 = true ↔
      (sampleBus []).idCount = 3 ∧ (sampleBus []).idBytes = [72, 52, 51]) :=
  ⟨by decide, by decide,
   testConnection_iff sampleDriver (sampleBus []) (by decide) (by decide)⟩

/-- Claim C6: `getRawHeading` consumes one 6-byte frame and decodes it as
big-endian signed 16-bit values in the axis-swapped wire order: X from
bytes 0-1, Z from bytes 2-3, Y from bytes 4-5. -/
theorem getRawHeading_wire (d : Driver) (b : Bus) (p0 p1 p2 p3 p4 p5 : Nat)
    (rest : List (List Nat)) (hf : b.frames = [p0, p1, p2, p3, p4, p5] :: rest) :
    (HMC5883L.getRawHeading d b).1 =
      (toInt16 (p0 * 256 + p1), toInt16 (p4 * 256 + p5), toInt16 (p2 * 256 + p3)) ∧
    (HMC5883L.getRawHeading d b).2.2.frames = rest := by
  by_cases hm : d.mode = HMC5883L_MODE_SINGLE <;>
    simp [HMC5883L.getRawHeading, Bus.readBytes, Bus.writeByte, hm, hf,
      HMC5883L_RA_DATAX_H, storeBytes, List.take, List.get]

/-- Witness for C6, the spec's example frame: bytes 01 02 03 04 05 06
decode to X = 0x0102, Y = 0x0506, Z = 0x0304. -/
theorem getRawHeading_wire_witness :
    (sampleBus [[1, 2, 3, 4, 5, 6]]).frames = [[1, 2, 3, 4, 5, 6]] ∧
    (HMC5883L.getRawHeading sampleDriver (sampleBus [[1, 2, 3, 4, 5, 6]])).1 =
      (toInt16 (1 * 256 + 2), toInt16 (5 * 256 + 6), toInt16 (3 * 256 + 4)) ∧
    (HMC5883L.getRawHeading sampleDriver (sampleBus [[1, 2, 3, 4, 5, 6]])).2.2.frames = [] :=
  ⟨by decide,
   getRawHeading_wire sampleDriver (sampleBus [[1, 2, 3, 4, 5, 6]])
     1 2 3 4 5 6 [] (by decide)⟩

/-- Claim C7: the scaled heading is the raw heading multiplied elementwise by
the scale factors of the driver's cached gain, each product truncated
toward zero. -/
theorem getHeading_scales_raw (d : Driver) (b : Bus) :
    (HMC5883L.getHeading d b).1 =
      (qtrunc ((d.scaleFactors d.gain).x * (((HMC5883L.getRawHeading d b).1.1 : ℤ) : ℚ)),
       qtrunc ((d.scaleFactors d.gain).y * (((HMC5883L.getRawHeading d b).1.2.1 : ℤ) : ℚ)),
       qtrunc ((d.scaleFactors d.gain).z * (((HMC5883L.getRawHeading d b).1.2.2 : ℤ) : ℚ))) :=
  rfl

/-- Claim C5: `setGain` writes the whole byte `g <<< 5` (bits 4-0 zero) to
CONFIG_B, the register takes that byte exactly when the write is
acknowledged, and the cached gain is updated if and only if the write
is acknowledged. -/
theorem setGain_spec (d : Driver) (b : Bus) (g : Nat) (hg : g < 8) :
    (HMC5883L.setGain d b g).2.wlog = b.wlog ++ [(HMC5883L_RA_CONFIG_B, g <<< 5)] ∧
    (HMC5883L.setGain d b g).2.regs HMC5883L_RA_CONFIG_B =
      (if b.ack = true then g <<< 5 else b.regs HMC5883L_RA_CONFIG_B) ∧
    (HMC5883L.setGain d b g).1.gain = (if b.ack = true then g else d.gain) := by
  have hlt : g <<< 5 < 256 := by
    rw [Nat.shiftLeft_eq]
    norm_num
    omega
  have hmod : g <<< 5 % 256 = g <<< 5 := Nat.mod_eq_of_lt hlt
  cases hb : b.ack <;>
    simp [HMC5883L.setGain, Bus.writeByte, hb, hmod,
      HMC5883L_CRB_GAIN_BIT, HMC5883L_CRB_GAIN_LENGTH, HMC5883L_RA_CONFIG_B]

/-- Witness for C5 at gain value 5 on an acknowledging bus: the byte
written is 160 = 5 <<< 5 and the cached gain becomes 5. -/
theorem setGain_spec_witness :
    (5 : Nat) < 8 ∧
    (HMC5883L.setGain sampleDriver (sampleBus []) 5).2.wlog =
      (sampleBus []).wlog ++ [(HMC5883L_RA_CONFIG_B, 5 <<< 5)] ∧
    (HMC5883L.setGain sampleDriver (sampleBus []) 5).2.regs HMC5883L_RA_CONFIG_B =
      (if (sampleBus []).ack = true then 5 <<< 5 else (sampleBus []).regs HMC5883L_RA_CONFIG_B) ∧
    (HMC5883L.setGain sampleDriver (sampleBus []) 5).1.gain =
      (if (sampleBus []).ack = true then 5 else sampleDriver.gain) :=
  ⟨by decide, setGain_spec sampleDriver (sampleBus []) 5 (by decide)⟩

/-- Claim C4 (code defect): with cached mode 2 (idle), `setMode 1` writes the
byte 2 -- the stale cached mode shifted into position -- to the MODE
register instead of the requested mode byte 1, while the cached mode is
still updated to 1 unconditionally. -/
theorem setMode_writes_previous_mode :
    (HMC5883L.setMode sampleDriver (sampleBus []) 1).2.wlog = [(HMC5883L_RA_MODE, 2)] ∧
    (2 : Nat) ≠ 1 <<< (HMC5883L_MODEREG_BIT + 1 - HMC5883L_MODEREG_LENGTH) ∧
    (HMC5883L.setMode sampleDriver (sampleBus []) 1).1.mode = 1 := by
  refine ⟨by decide, by decide, by decide⟩

/-- A raw acquisition never touches the scale-factor table. -/
theorem getRawHeading_scaleFactors (d : Driver) (b : Bus) :
    (HMC5883L.getRawHeading d b).2.1.scaleFactors = d.scaleFactors := rfl

/-- A raw acquisition never touches the cached gain. -/
theorem getRawHeading_gain (d : Driver) (b : Bus) :
    (HMC5883L.getRawHeading d b).2.1.gain = d.gain := rfl

/-- Characterization of the calibration setup phase: the previous gain
is the gain field read from CONFIG_B, the target gain byte is written to
CONFIG_B, positive bias to CONFIG_A and the stale cached mode byte to
MODE, with registers taking effect only on an acknowledging bus. -/
theorem calibrateSetup_spec (d : Driver) (b : Bus) (tg : Int) (h : ¬ tg < 0) :
    (HMC5883L.calibrateSetup d b tg).1 = (b.regs HMC5883L_RA_CONFIG_B >>> 5) % 8 ∧
    (HMC5883L.calibrateSetup d b tg).2.1 = tg.toNat ∧
    (HMC5883L.calibrateSetup d b tg).2.2.1.gain =
      (if b.ack = true then tg.toNat else d.gain) ∧
    (HMC5883L.calibrateSetup d b tg).2.2.1.mode = HMC5883L_MODE_SINGLE ∧
    (HMC5883L.calibrateSetup d b tg).2.2.1.scaleFactors = d.scaleFactors ∧
    (HMC5883L.calibrateSetup d b tg).2.2.2.ack = b.ack ∧
    (HMC5883L.calibrateSetup d b tg).2.2.2.frames = b.frames ∧
    (HMC5883L.calibrateSetup d b tg).2.2.2.wlog = b.wlog ++
      [(HMC5883L_RA_CONFIG_B, tg.toNat <<< 5 % 256),
       (HMC5883L_RA_CONFIG_A, ((b.regs HMC5883L_RA_CONFIG_A % 256) &&& 252) ||| 1),
       (HMC5883L_RA_MODE, d.mode <<< 0 % 256)] ∧
    (∀ r, (HMC5883L.calibrateSetup d b tg).2.2.2.regs r =
      (if b.ack = true then
        (if r = HMC5883L_RA_MODE then d.mode <<< 0 % 256
         else if r = HMC5883L_RA_CONFIG_A then ((b.regs HMC5883L_RA_CONFIG_A % 256) &&& 252) ||| 1
         else if r = HMC5883L_RA_CONFIG_B then tg.toNat <<< 5 % 256
         else b.regs r)
       else b.regs r)) := by
  have hlt : (b.regs 0 % 256 &&& 252) ||| 1 < 256 := by
    have h1 : b.regs 0 % 256 &&& 252 < 2 ^ 8 := Nat.and_lt_two_pow _ (by norm_num)
    have h2 : (1 : Nat) < 2 ^ 8 := by norm_num
    have h3 := Nat.or_lt_two_pow h1 h2
    have h4 : (2 : Nat) ^ 8 = 256 := by norm_num
    omega
  cases hb : b.ack <;>
    simp [HMC5883L.calibrateSetup, HMC5883L.getGain, HMC5883L.setGain,
      Nat.mod_eq_of_lt hlt,
      HMC5883L.setMeasurementBias, HMC5883L.setMode, Bus.writeByte, Bus.writeBits,
      Bus.readBits, storeBytes, h, hb, HMC5883L_RA_CONFIG_A, HMC5883L_RA_CONFIG_B,
      HMC5883L_RA_MODE, HMC5883L_CRB_GAIN_BIT, HMC5883L_CRB_GAIN_LENGTH,
      HMC5883L_CRA_BIAS_BIT, HMC5883L_CRA_BIAS_LENGTH, HMC5883L_BIAS_POSITIVE,
      HMC5883L_MODEREG_BIT, HMC5883L_MODEREG_LENGTH, HMC5883L_MODE_SINGLE]

/-- Characterization of one raw acquisition in single mode against a
scripted 6-byte frame: the decoded axes, the consumed frame, the
re-trigger write to MODE, and the untouched driver fields. -/
theorem getRawHeading_spec (d : Driver) (b : Bus) (p0 p1 p2 p3 p4 p5 : Nat)
    (rest : List (List Nat)) (hm : d.mode = HMC5883L_MODE_SINGLE)
    (hf : b.frames = [p0, p1, p2, p3, p4, p5] :: rest) :
    (HMC5883L.getRawHeading d b).1 =
      (toInt16 (p0 * 256 + p1), toInt16 (p4 * 256 + p5), toInt16 (p2 * 256 + p3)) ∧
    (HMC5883L.getRawHeading d b).2.1.gain = d.gain ∧
    (HMC5883L.getRawHeading d b).2.1.mode = d.mode ∧
    (HMC5883L.getRawHeading d b).2.1.scaleFactors = d.scaleFactors ∧
    (HMC5883L.getRawHeading d b).2.2.ack = b.ack ∧
    (HMC5883L.getRawHeading d b).2.2.frames = rest ∧
    (HMC5883L.getRawHeading d b).2.2.wlog = b.wlog ++ [(HMC5883L_RA_MODE, 1)] ∧
    (∀ r, (HMC5883L.getRawHeading d b).2.2.regs r =
      (if b.ack = true then (if r = HMC5883L_RA_MODE then 1 else b.regs r) else b.regs r)) := by
  cases hb : b.ack <;>
    simp [HMC5883L.getRawHeading, Bus.writeByte, Bus.readBytes, storeBytes, hm, hf, hb,
      HMC5883L_MODE_SINGLE, HMC5883L_RA_MODE, HMC5883L_RA_DATAX_H,
      HMC5883L_MODEREG_BIT, HMC5883L_MODEREG_LENGTH, List.take, List.get]

/-- A gain write never touches the scale-factor table. -/
theorem setGain_scaleFactors (d : Driver) (b : Bus) (n : Nat) :
    (HMC5883L.setGain d b n).1.scaleFactors = d.scaleFactors := by
  cases hb : b.ack <;> simp [HMC5883L.setGain, Bus.writeByte, hb]

/-- Claim C10: for any target gain `g` in 0..7 and any other index,
`calibrate g` leaves the other index's scale factors unchanged, on
every path and against every bus. -/
theorem calibrate_preserves_other_gains (g gp : Nat) (hg : g < 8) (hne : gp ≠ g)
    (d : Driver) (b : Bus) :
    (HMC5883L.calibrate d b (g : Int)).2.1.scaleFactors gp = d.scaleFactors gp := by
  have hneg : ¬ ((g : Int) < 0) := by omega
  have hsp := calibrateSetup_spec d b (g : Int) hneg
  rcases hS : HMC5883L.calibrateSetup d b (g : Int) with ⟨pg, tgn, d3, b3⟩
  rw [hS] at hsp
  obtain ⟨hpg, htg, hgain, hmode, hsf, hack, hframes, hwlog, hregs⟩ := hsp
  simp only at hpg htg hgain hmode hsf hack hframes hwlog hregs
  have htg9 : tgn = g := by simpa using htg
  subst htg9
  simp only [HMC5883L.calibrate, hS]
  rcases hR4 : HMC5883L.getRawHeading d3 b3 with ⟨⟨x1, y1, z1⟩, d4, b4⟩
  have hsf4 : d4.scaleFactors = d3.scaleFactors := by
    have h := getRawHeading_scaleFactors d3 b3
    rw [hR4] at h
    exact h
  simp only
  split
  · simp [setScaleFactor, hne, hsf4, hsf]
  · rcases hR5 : HMC5883L.getRawHeading d4 b4 with ⟨⟨x2, y2, z2⟩, d5, b5⟩
    have hsf5 : d5.scaleFactors = d4.scaleFactors := by
      have h := getRawHeading_scaleFactors d4 b4
      rw [hR5] at h
      exact h
    simp only
    split
    · simp [setScaleFactor, hne, hsf5, hsf4, hsf]
    · simp [HMC5883L.setMeasurementBias, setGain_scaleFactors, setScaleFactor,
        hne, hsf5, hsf4, hsf]

/-- Claim C2 (amended): if either acquisition returns a sample whose
LEAST axis equals -4096 (in particular, some axis is -4096 and no axis
is below it), `calibrate` returns false and resets the target gain's
scale factors to (1, 1, 1). -/
theorem calibrate_overflow_detected (g : Nat) (hg : g < 8) (d : Driver) (b : Bus)
    (p0 p1 p2 p3 p4 p5 q0 q1 q2 q3 q4 q5 : Nat) (rest : List (List Nat))
    (hf : b.frames = [p0, p1, p2, p3, p4, p5] :: [q0, q1, q2, q3, q4, q5] :: rest)
    (hmin : min (toInt16 (p0 * 256 + p1))
        (min (toInt16 (p4 * 256 + p5)) (toInt16 (p2 * 256 + p3))) = -4096 ∨
      (min (toInt16 (p0 * 256 + p1))
        (min (toInt16 (p4 * 256 + p5)) (toInt16 (p2 * 256 + p3))) ≠ -4096 ∧
       min (toInt16 (q0 * 256 + q1))
        (min (toInt16 (q4 * 256 + q5)) (toInt16 (q2 * 256 + q3))) = -4096)) :
    (HMC5883L.calibrate d b (g : Int)).1 = false ∧
    (HMC5883L.calibrate d b (g : Int)).2.1.scaleFactors g = ⟨1, 1, 1⟩ := by
  have hneg : ¬ ((g : Int) < 0) := by omega
  have hsp := calibrateSetup_spec d b (g : Int) hneg
  rcases hS : HMC5883L.calibrateSetup d b (g : Int) with ⟨pg, tgn, d3, b3⟩
  rw [hS] at hsp
  obtain ⟨hpg, htg, hgain, hmode, hsf, hack, hframes, hwlog, hregs⟩ := hsp
  simp only at hpg htg hgain hmode hsf hack hframes hwlog hregs
  have htg9 : tgn = g := by simpa using htg
  subst htg9
  have hr4 := getRawHeading_spec d3 b3 p0 p1 p2 p3 p4 p5
    ([q0, q1, q2, q3, q4, q5] :: rest) hmode (by rw [hframes, hf])
  rcases hR4 : HMC5883L.getRawHeading d3 b3 with ⟨⟨x1, y1, z1⟩, d4, b4⟩
  rw [hR4] at hr4
  obtain ⟨hv4, hgain4, hmode4, hsf4, hack4, hframes4, hwlog4, hregs4⟩ := hr4
  simp only at hv4 hgain4 hmode4 hsf4 hack4 hframes4 hwlog4 hregs4
  simp only [Prod.mk.injEq] at hv4
  obtain ⟨hx1, hy1, hz1⟩ := hv4
  simp only [HMC5883L.calibrate, hS, hR4]
  rcases hmin with hA | ⟨hA, hB⟩
  · rw [hx1, hy1, hz1, if_pos hA]
    simp [setScaleFactor]
  · rw [hx1, hy1, hz1, if_neg hA]
    have hr5 := getRawHeading_spec d4 b4 q0 q1 q2 q3 q4 q5 rest
      (hmode4.trans hmode) hframes4
    rcases hR5 : HMC5883L.getRawHeading d4 b4 with ⟨⟨x2, y2, z2⟩, d5, b5⟩
    rw [hR5] at hr5
    obtain ⟨hv5, hgain5, hmode5, hsf5, hack5, hframes5, hwlog5, hregs5⟩ := hr5
    simp only [Prod.mk.injEq] at hv5
    obtain ⟨hx2, hy2, hz2⟩ := hv5
    simp only [hR5]
    rw [hx2, hy2, hz2, if_pos hB]
    simp [setScaleFactor]

/-- Counterexample to claim C2 as stated: in the first acquisition the
X axis is exactly -4096 (the overflow sentinel) but the Y axis decodes
to -5000, so `min(x, min(y, z))` is -5000, the sentinel test fails, and
`calibrate` returns true instead of the claimed false. -/
theorem calibrate_overflow_missed :
    wireX [240, 0, 0, 1, 236, 120] = -4096 ∧
    wireY [240, 0, 0, 1, 236, 120] = -5000 ∧
    (HMC5883L.calibrate sampleDriver
      (sampleBus [[240, 0, 0, 1, 236, 120], [0, 100, 0, 120, 0, 140]]) 1).1 = true := by
  refine ⟨by decide, by decide, by decide⟩

/-- Claim C3: when `calibrate` detects the -4096 sentinel it returns
false without issuing any further bus write after the failed
acquisition's trigger: the complete write trace stops there, and the
device is left in the self-test configuration -- target gain byte in
CONFIG_B, positive bias in CONFIG_A's bias field, single mode in the
MODE register. -/
theorem calibrate_failure_no_restore (g : Nat) (hg : g < 8) (d : Driver) (b : Bus)
    (p0 p1 p2 p3 p4 p5 q0 q1 q2 q3 q4 q5 : Nat) (rest : List (List Nat))
    (hack : b.ack = true)
    (hf : b.frames = [p0, p1, p2, p3, p4, p5] :: [q0, q1, q2, q3, q4, q5] :: rest)
    (hmin : min (toInt16 (p0 * 256 + p1))
        (min (toInt16 (p4 * 256 + p5)) (toInt16 (p2 * 256 + p3))) = -4096 ∨
      (min (toInt16 (p0 * 256 + p1))
        (min (toInt16 (p4 * 256 + p5)) (toInt16 (p2 * 256 + p3))) ≠ -4096 ∧
       min (toInt16 (q0 * 256 + q1))
        (min (toInt16 (q4 * 256 + q5)) (toInt16 (q2 * 256 + q3))) = -4096)) :
    (HMC5883L.calibrate d b (g : Int)).1 = false ∧
    (HMC5883L.calibrate d b (g : Int)).2.2.wlog = b.wlog ++
      ([(HMC5883L_RA_CONFIG_B, g <<< 5),
        (HMC5883L_RA_CONFIG_A, ((b.regs HMC5883L_RA_CONFIG_A % 256) &&& 252) ||| 1),
        (HMC5883L_RA_MODE, d.mode % 256),
        (HMC5883L_RA_MODE, 1)] ++
       (if min (toInt16 (p0 * 256 + p1))
          (min (toInt16 (p4 * 256 + p5)) (toInt16 (p2 * 256 + p3))) = -4096 then []
        else [(HMC5883L_RA_MODE, 1)])) ∧
    (HMC5883L.calibrate d b (g : Int)).2.2.regs HMC5883L_RA_CONFIG_B = g <<< 5 ∧
    (HMC5883L.calibrate d b (g : Int)).2.2.regs HMC5883L_RA_CONFIG_A % 4 =
      HMC5883L_BIAS_POSITIVE ∧
    (HMC5883L.calibrate d b (g : Int)).2.2.regs HMC5883L_RA_MODE = HMC5883L_MODE_SINGLE := by
  have hneg : ¬ ((g : Int) < 0) := by omega
  have hlt5 : g <<< 5 < 256 := by
    rw [Nat.shiftLeft_eq]
    norm_num
    omega
  have hmod5 : g <<< 5 % 256 = g <<< 5 := Nat.mod_eq_of_lt hlt5
  have hsp := calibrateSetup_spec d b (g : Int) hneg
  rcases hS : HMC5883L.calibrateSetup d b (g : Int) with ⟨pg, tgn, d3, b3⟩
  rw [hS] at hsp
  obtain ⟨hpg, htg, hgain, hmode, hsf, hack3, hframes, hwlog, hregs⟩ := hsp
  simp only at hpg htg hgain hmode hsf hack3 hframes hwlog hregs
  have htg9 : tgn = g := by simpa using htg
  subst htg9
  have hbt3 : b3.ack = true := hack3.trans hack
  have hr4 := getRawHeading_spec d3 b3 p0 p1 p2 p3 p4 p5
    ([q0, q1, q2, q3, q4, q5] :: rest) hmode (by rw [hframes, hf])
  rcases hR4 : HMC5883L.getRawHeading d3 b3 with ⟨⟨x1, y1, z1⟩, d4, b4⟩
  rw [hR4] at hr4
  obtain ⟨hv4, hgain4, hmode4, hsf4, hack4, hframes4, hwlog4, hregs4⟩ := hr4
  simp only [Prod.mk.injEq] at hv4
  simp only at hgain4 hmode4 hsf4 hack4 hframes4 hwlog4 hregs4
  obtain ⟨hx1, hy1, hz1⟩ := hv4
  have hbt4 : b4.ack = true := hack4.trans hbt3
  simp only [HMC5883L.calibrate, hS, hR4]
  rcases hmin with hA | ⟨hA, hB⟩
  · rw [hx1, hy1, hz1, if_pos hA]
    refine ⟨rfl, ?_, ?_, ?_, ?_⟩
    · rw [hwlog4, hwlog]
      simp [hA, Int.toNat_natCast, hmod5, Nat.shiftLeft_zero]
    · simp [hregs4, hregs, hbt3, hack, HMC5883L_RA_CONFIG_B, HMC5883L_RA_MODE,
        HMC5883L_RA_CONFIG_A, Int.toNat_natCast, hmod5]
    · simp only [hregs4, hregs, hbt3, hack, if_pos, HMC5883L_RA_CONFIG_B,
        HMC5883L_RA_MODE, HMC5883L_RA_CONFIG_A, HMC5883L_BIAS_POSITIVE]
      norm_num [and_252_or_one_mod_four]
    · simp [hregs4, hbt3, HMC5883L_RA_MODE, HMC5883L_MODE_SINGLE]
  · rw [hx1, hy1, hz1, if_neg hA]
    have hr5 := getRawHeading_spec d4 b4 q0 q1 q2 q3 q4 q5 rest
      (hmode4.trans hmode) hframes4
    rcases hR5 : HMC5883L.getRawHeading d4 b4 with ⟨⟨x2, y2, z2⟩, d5, b5⟩
    rw [hR5] at hr5
    obtain ⟨hv5, hgain5, hmode5, hsf5, hack5, hframes5, hwlog5, hregs5⟩ := hr5
    simp only [Prod.mk.injEq] at hv5
    simp only at hgain5 hmode5 hsf5 hack5 hframes5 hwlog5 hregs5
    obtain ⟨hx2, hy2, hz2⟩ := hv5
    simp only [hR5]
    rw [hx2, hy2, hz2, if_pos hB]
    refine ⟨rfl, ?_, ?_, ?_, ?_⟩
    · rw [hwlog5, hwlog4, hwlog]
      simp [hA, Int.toNat_natCast, hmod5, Nat.shiftLeft_zero]
    · simp [hregs5, hregs4, hregs, hbt4, hbt3, hack, HMC5883L_RA_CONFIG_B,
        HMC5883L_RA_MODE, HMC5883L_RA_CONFIG_A, Int.toNat_natCast, hmod5]
    · simp only [hregs5, hregs4, hregs, hbt4, hbt3, hack, if_pos,
        HMC5883L_RA_CONFIG_B, HMC5883L_RA_MODE, HMC5883L_RA_CONFIG_A,
        HMC5883L_BIAS_POSITIVE]
      norm_num [and_252_or_one_mod_four]
    · simp [hregs5, hbt4, HMC5883L_RA_MODE, HMC5883L_MODE_SINGLE]

/-- A read-modify-write of a byte's two low bits stays a byte. -/
theorem rmw_byte_lt (x v : Nat) : ((x % 256 &&& 252) ||| (v &&& 3)) < 256 := by
  have h1 : x % 256 &&& 252 < 2 ^ 8 := Nat.and_lt_two_pow _ (by norm_num)
  have h2 : v &&& 3 < 2 ^ 8 := Nat.and_lt_two_pow _ (by norm_num)
  have h3 := Nat.or_lt_two_pow h1 h2
  have h4 : (2 : Nat) ^ 8 = 256 := by norm_num
  omega

/-- Full state characterization of a gain write: the shifted gain byte
lands in CONFIG_B and the cache updates exactly on an acknowledged
write. -/
theorem setGain_state_spec (d : Driver) (b : Bus) (n : Nat) :
    (HMC5883L.setGain d b n).1.gain = (if b.ack = true then n else d.gain) ∧
    (HMC5883L.setGain d b n).1.mode = d.mode ∧
    (HMC5883L.setGain d b n).1.scaleFactors = d.scaleFactors ∧
    (HMC5883L.setGain d b n).2.ack = b.ack ∧
    (HMC5883L.setGain d b n).2.frames = b.frames ∧
    (∀ r, (HMC5883L.setGain d b n).2.regs r =
      (if b.ack = true then (if r = HMC5883L_RA_CONFIG_B then n <<< 5 % 256 else b.regs r)
       else b.regs r)) := by
  cases hb : b.ack <;>
    simp [HMC5883L.setGain, Bus.writeByte, hb, HMC5883L_CRB_GAIN_BIT,
      HMC5883L_CRB_GAIN_LENGTH]

/-- Full state characterization of a bias write: a read-modify-write of
the two low bits of CONFIG_A, leaving the driver untouched. -/
theorem setMeasurementBias_state_spec (d : Driver) (b : Bus) (v : Nat) :
    (HMC5883L.setMeasurementBias d b v).1 = d ∧
    (∀ r, (HMC5883L.setMeasurementBias d b v).2.regs r =
      (if b.ack = true then
        (if r = HMC5883L_RA_CONFIG_A then ((b.regs HMC5883L_RA_CONFIG_A % 256) &&& 252) ||| (v &&& 3)
         else b.regs r)
       else b.regs r)) := by
  have hlt := rmw_byte_lt (b.regs 0) v
  cases hb : b.ack <;>
    simp [HMC5883L.setMeasurementBias, Bus.writeBits, Bus.writeByte, hb,
      Nat.mod_eq_of_lt hlt, HMC5883L_CRA_BIAS_BIT, HMC5883L_CRA_BIAS_LENGTH,
      HMC5883L_RA_CONFIG_A]

/-- Claim C1: on an acknowledging bus whose two acquisitions carry no
-4096 and no zero axis, `calibrate g` returns true, stores
expected/measured per axis into the target gain's scale factors with
the measured values taken from the SECOND acquisition, restores the
previously active gain both as the cached gain and in the device's
CONFIG_B register, and writes the bias field back to NORMAL. -/
theorem calibrate_success (g : Nat) (hg : g < 8) (d : Driver) (b : Bus)
    (p0 p1 p2 p3 p4 p5 q0 q1 q2 q3 q4 q5 : Nat) (rest : List (List Nat))
    (hack : b.ack = true)
    (hf : b.frames = [p0, p1, p2, p3, p4, p5] :: [q0, q1, q2, q3, q4, q5] :: rest)
    (hx1 : toInt16 (p0 * 256 + p1) ≠ -4096) (hy1 : toInt16 (p4 * 256 + p5) ≠ -4096)
    (hz1 : toInt16 (p2 * 256 + p3) ≠ -4096)
    (hx2 : toInt16 (q0 * 256 + q1) ≠ -4096) (hy2 : toInt16 (q4 * 256 + q5) ≠ -4096)
    (hz2 : toInt16 (q2 * 256 + q3) ≠ -4096)
    (hx1z : toInt16 (p0 * 256 + p1) ≠ 0) (hy1z : toInt16 (p4 * 256 + p5) ≠ 0)
    (hz1z : toInt16 (p2 * 256 + p3) ≠ 0)
    (hx2z : toInt16 (q0 * 256 + q1) ≠ 0) (hy2z : toInt16 (q4 * 256 + q5) ≠ 0)
    (hz2z : toInt16 (q2 * 256 + q3) ≠ 0) :
    (HMC5883L.calibrate d b (g : Int)).1 = true ∧
    (HMC5883L.calibrate d b (g : Int)).2.1.scaleFactors g =
      ⟨HMC5883L_SELF_TEST_X_AXIS_ABSOLUTE_GAUSS * HMC5883L_LSB_PER_GAUS g /
         ((toInt16 (q0 * 256 + q1) : ℤ) : ℚ),
       HMC5883L_SELF_TEST_Y_AXIS_ABSOLUTE_GAUSS * HMC5883L_LSB_PER_GAUS g /
         ((toInt16 (q4 * 256 + q5) : ℤ) : ℚ),
       HMC5883L_SELF_TEST_Z_AXIS_ABSOLUTE_GAUSS * HMC5883L_LSB_PER_GAUS g /
         ((toInt16 (q2 * 256 + q3) : ℤ) : ℚ)⟩ ∧
    (HMC5883L.calibrate d b (g : Int)).2.1.gain = (b.regs HMC5883L_RA_CONFIG_B >>> 5) % 8 ∧
    (HMC5883L.calibrate d b (g : Int)).2.2.regs HMC5883L_RA_CONFIG_B =
      ((b.regs HMC5883L_RA_CONFIG_B >>> 5) % 8) <<< 5 ∧
    (HMC5883L.calibrate d b (g : Int)).2.2.regs HMC5883L_RA_CONFIG_A % 4 =
      HMC5883L_BIAS_NORMAL := by
  have hneg : ¬ ((g : Int) < 0) := by omega
  have hsp := calibrateSetup_spec d b (g : Int) hneg
  rcases hS : HMC5883L.calibrateSetup d b (g : Int) with ⟨pg, tgn, d3, b3⟩
  rw [hS] at hsp
  obtain ⟨hpg, htg, hgain, hmode, hsf, hack3, hframes, hwlog, hregs⟩ := hsp
  simp only at hpg htg hgain hmode hsf hack3 hframes hwlog hregs
  have htg9 : tgn = g := by simpa using htg
  subst htg9
  have hbt3 : b3.ack = true := hack3.trans hack
  have hpglt : pg < 8 := by rw [hpg]; exact Nat.mod_lt _ (by norm_num)
  have hpgmod : pg <<< 5 % 256 = pg <<< 5 := by
    apply Nat.mod_eq_of_lt
    rw [Nat.shiftLeft_eq]
    norm_num
    omega
  have hr4 := getRawHeading_spec d3 b3 p0 p1 p2 p3 p4 p5
    ([q0, q1, q2, q3, q4, q5] :: rest) hmode (by rw [hframes, hf])
  rcases hR4 : HMC5883L.getRawHeading d3 b3 with ⟨⟨x1, y1, z1⟩, d4, b4⟩
  rw [hR4] at hr4
  obtain ⟨hv4, hgain4, hmode4, hsf4, hack4, hframes4, hwlog4, hregs4⟩ := hr4
  simp only [Prod.mk.injEq] at hv4
  simp only at hgain4 hmode4 hsf4 hack4 hframes4 hwlog4 hregs4
  obtain ⟨hx1v, hy1v, hz1v⟩ := hv4
  have hbt4 : b4.ack = true := hack4.trans hbt3
  have hA : ¬ (min x1 (min y1 z1) = -4096) := by
    rw [hx1v, hy1v, hz1v]
    exact min3_ne hx1 hy1 hz1
  simp only [HMC5883L.calibrate, hS, hR4]
  rw [if_neg hA]
  have hr5 := getRawHeading_spec d4 b4 q0 q1 q2 q3 q4 q5 rest
    (hmode4.trans hmode) hframes4
  rcases hR5 : HMC5883L.getRawHeading d4 b4 with ⟨⟨x2, y2, z2⟩, d5, b5⟩
  rw [hR5] at hr5
  obtain ⟨hv5, hgain5, hmode5, hsf5, hack5, hframes5, hwlog5, hregs5⟩ := hr5
  simp only [Prod.mk.injEq] at hv5
  simp only at hgain5 hmode5 hsf5 hack5 hframes5 hwlog5 hregs5
  obtain ⟨hx2v, hy2v, hz2v⟩ := hv5
  have hbt5 : b5.ack = true := hack5.trans hbt4
  have hB : ¬ (min x2 (min y2 z2) = -4096) := by
    rw [hx2v, hy2v, hz2v]
    exact min3_ne hx2 hy2 hz2
  simp only [hR5]
  rw [if_neg hB]
  obtain ⟨hg6, hm6, hsf6, hackr6, hfr6, hregs6⟩ :=
    setGain_state_spec (setScaleFactor d5 tgn
      ⟨HMC5883L_SELF_TEST_X_AXIS_ABSOLUTE_GAUSS * HMC5883L_LSB_PER_GAUS tgn / ((x2 : ℤ) : ℚ),
       HMC5883L_SELF_TEST_Y_AXIS_ABSOLUTE_GAUSS * HMC5883L_LSB_PER_GAUS tgn / ((y2 : ℤ) : ℚ),
       HMC5883L_SELF_TEST_Z_AXIS_ABSOLUTE_GAUSS * HMC5883L_LSB_PER_GAUS tgn / ((z2 : ℤ) : ℚ)⟩) b5 pg
  obtain ⟨hd7, hregs7⟩ :=
    setMeasurementBias_state_spec
      (HMC5883L.setGain (setScaleFactor d5 tgn
        ⟨HMC5883L_SELF_TEST_X_AXIS_ABSOLUTE_GAUSS * HMC5883L_LSB_PER_GAUS tgn / ((x2 : ℤ) : ℚ),
         HMC5883L_SELF_TEST_Y_AXIS_ABSOLUTE_GAUSS * HMC5883L_LSB_PER_GAUS tgn / ((y2 : ℤ) : ℚ),
         HMC5883L_SELF_TEST_Z_AXIS_ABSOLUTE_GAUSS * HMC5883L_LSB_PER_GAUS tgn / ((z2 : ℤ) : ℚ)⟩) b5 pg).1
      (HMC5883L.setGain (setScaleFactor d5 tgn
        ⟨HMC5883L_SELF_TEST_X_AXIS_ABSOLUTE_GAUSS * HMC5883L_LSB_PER_GAUS tgn / ((x2 : ℤ) : ℚ),
         HMC5883L_SELF_TEST_Y_AXIS_ABSOLUTE_GAUSS * HMC5883L_LSB_PER_GAUS tgn / ((y2 : ℤ) : ℚ),
         HMC5883L_SELF_TEST_Z_AXIS_ABSOLUTE_GAUSS * HMC5883L_LSB_PER_GAUS tgn / ((z2 : ℤ) : ℚ)⟩) b5 pg).2
      HMC5883L_BIAS_NORMAL
  refine ⟨rfl, ?_, ?_, ?_, ?_⟩
  · rw [hd7, hsf6]
    rw [hx2v, hy2v, hz2v]
    simp [setScaleFactor]
  · rw [hd7, hg6, hbt5, if_pos rfl, hpg]
  · rw [hregs7 _, hackr6, hbt5, if_pos rfl]
    rw [if_neg (by simp [HMC5883L_RA_CONFIG_A, HMC5883L_RA_CONFIG_B])]
    rw [hregs6 _, hbt5, if_pos rfl, if_pos rfl, hpgmod, hpg]
  · rw [hregs7 _, hackr6, hbt5, if_pos rfl, if_pos rfl]
    simp [HMC5883L_BIAS_NORMAL, and_252_mod_four]


/-- Witness for claim C1 at gain 1 with acquisitions (100, 140, 120). -/
theorem calibrate_success_witness :
    (1 : Nat) < 8 ∧ (sampleBus calFramesOk).ack = true ∧
    (sampleBus calFramesOk).frames =
      [0, 100, 0, 120, 0, 140] :: [0, 100, 0, 120, 0, 140] :: [] ∧
    toInt16 (0 * 256 + 100) ≠ -4096 ∧ toInt16 (0 * 256 + 140) ≠ -4096 ∧
    toInt16 (0 * 256 + 120) ≠ -4096 ∧ toInt16 (0 * 256 + 100) ≠ 0 ∧
    toInt16 (0 * 256 + 140) ≠ 0 ∧ toInt16 (0 * 256 + 120) ≠ 0 ∧
    ((HMC5883L.calibrate sampleDriver (sampleBus calFramesOk) ((1 : Nat) : Int)).1 = true ∧
     (HMC5883L.calibrate sampleDriver (sampleBus calFramesOk) ((1 : Nat) : Int)).2.1.scaleFactors 1 =
       ⟨HMC5883L_SELF_TEST_X_AXIS_ABSOLUTE_GAUSS * HMC5883L_LSB_PER_GAUS 1 /
          ((toInt16 (0 * 256 + 100) : ℤ) : ℚ),
        HMC5883L_SELF_TEST_Y_AXIS_ABSOLUTE_GAUSS * HMC5883L_LSB_PER_GAUS 1 /
          ((toInt16 (0 * 256 + 140) : ℤ) : ℚ),
        HMC5883L_SELF_TEST_Z_AXIS_ABSOLUTE_GAUSS * HMC5883L_LSB_PER_GAUS 1 /
          ((toInt16 (0 * 256 + 120) : ℤ) : ℚ)⟩ ∧
     (HMC5883L.calibrate sampleDriver (sampleBus calFramesOk) ((1 : Nat) : Int)).2.1.gain =
       ((sampleBus calFramesOk).regs HMC5883L_RA_CONFIG_B >>> 5) % 8 ∧
     (HMC5883L.calibrate sampleDriver (sampleBus calFramesOk) ((1 : Nat) : Int)).2.2.regs
       HMC5883L_RA_CONFIG_B =
       (((sampleBus calFramesOk).regs HMC5883L_RA_CONFIG_B >>> 5) % 8) <<< 5 ∧
     (HMC5883L.calibrate sampleDriver (sampleBus calFramesOk) ((1 : Nat) : Int)).2.2.regs
       HMC5883L_RA_CONFIG_A % 4 = HMC5883L_BIAS_NORMAL) :=
  ⟨by decide, by decide, by decide, by decide, by decide, by decide, by decide,
   by decide, by decide,
   calibrate_success 1 (by decide) sampleDriver (sampleBus calFramesOk)
     0 100 0 120 0 140 0 100 0 120 0 140 [] (by decide) (by decide)
     (by decide) (by decide) (by decide) (by decide) (by decide) (by decide)
     (by decide) (by decide) (by decide) (by decide) (by decide) (by decide)⟩

/-- Witness for the amended claim C2: first acquisition decodes to
(-4096, 100, 1), whose minimum is -4096. -/
theorem calibrate_overflow_detected_witness :
    (1 : Nat) < 8 ∧
    (sampleBus calFramesBad).frames =
      [240, 0, 0, 1, 0, 100] :: [0, 100, 0, 120, 0, 140] :: [] ∧
    min (toInt16 (240 * 256 + 0))
      (min (toInt16 (0 * 256 + 100)) (toInt16 (0 * 256 + 1))) = -4096 ∧
    ((HMC5883L.calibrate sampleDriver (sampleBus calFramesBad) ((1 : Nat) : Int)).1 = false ∧
     (HMC5883L.calibrate sampleDriver (sampleBus calFramesBad) ((1 : Nat) : Int)).2.1.scaleFactors 1 =
       ⟨1, 1, 1⟩) :=
  ⟨by decide, by decide, by decide,
   calibrate_overflow_detected 1 (by decide) sampleDriver (sampleBus calFramesBad)
     240 0 0 1 0 100 0 100 0 120 0 140 [] (by decide) (Or.inl (by decide))⟩

/-- Witness for claim C3 on the same failing acquisition. -/
theorem calibrate_failure_no_restore_witness :
    (1 : Nat) < 8 ∧ (sampleBus calFramesBad).ack = true ∧
    ((HMC5883L.calibrate sampleDriver (sampleBus calFramesBad) ((1 : Nat) : Int)).1 = false ∧
     (HMC5883L.calibrate sampleDriver (sampleBus calFramesBad) ((1 : Nat) : Int)).2.2.wlog =
       (sampleBus calFramesBad).wlog ++
       ([(HMC5883L_RA_CONFIG_B, 1 <<< 5),
         (HMC5883L_RA_CONFIG_A,
          (((sampleBus calFramesBad).regs HMC5883L_RA_CONFIG_A % 256) &&& 252) ||| 1),
         (HMC5883L_RA_MODE, sampleDriver.mode % 256),
         (HMC5883L_RA_MODE, 1)] ++
        (if min (toInt16 (240 * 256 + 0))
           (min (toInt16 (0 * 256 + 100)) (toInt16 (0 * 256 + 1))) = -4096 then []
         else [(HMC5883L_RA_MODE, 1)])) ∧
     (HMC5883L.calibrate sampleDriver (sampleBus calFramesBad) ((1 : Nat) : Int)).2.2.regs
       HMC5883L_RA_CONFIG_B = 1 <<< 5 ∧
     (HMC5883L.calibrate sampleDriver (sampleBus calFramesBad) ((1 : Nat) : Int)).2.2.regs
       HMC5883L_RA_CONFIG_A % 4 = HMC5883L_BIAS_POSITIVE ∧
     (HMC5883L.calibrate sampleDriver (sampleBus calFramesBad) ((1 : Nat) : Int)).2.2.regs
       HMC5883L_RA_MODE = HMC5883L_MODE_SINGLE) :=
  ⟨by decide, by decide,
   calibrate_failure_no_restore 1 (by decide) sampleDriver (sampleBus calFramesBad)
     240 0 0 1 0 100 0 100 0 120 0 140 [] (by decide) (by decide)
     (Or.inl (by decide))⟩

/-- Witness for claim C10: calibrating gain 1 leaves gain 0's scale
factors untouched. -/
theorem calibrate_preserves_other_gains_witness :
    (1 : Nat) < 8 ∧ (0 : Nat) ≠ 1 ∧
    (HMC5883L.calibrate sampleDriver (sampleBus calFramesOk) ((1 : Nat) : Int)).2.1.scaleFactors 0 =
      sampleDriver.scaleFactors 0 :=
  ⟨by decide, by decide,
   calibrate_preserves_other_gains 1 0 (by decide) (by decide) sampleDriver
     (sampleBus calFramesOk)⟩
